import Mathlib

/-!
Verification of the render-session controller of the `cycles` repository
(`src/app/cycles_standalone.cpp`, `src/app/cycles_ios.cpp`,
`src/app/cycles_ios.h`) against its natural-language specification.

Shallow embedding conventions:
* C `int` fields are modelled as `Int` (no claim depends on 32-bit wrap).
* C strings are `String`; an unset `const char *`-backed `string` global is
  the empty string (C++ zero-initialised globals).
* The global `struct Options` singleton of each translation unit becomes an
  explicit state record threaded through the functions.
* Calls into the external engine (device enumeration, scene readers, the
  `Session` object's methods) are modelled as environment parameters and as
  entries of an event trace; `exit()` is modelled as an early result carrying
  the exit code.
* `EXIT_SUCCESS = 0`, `EXIT_FAILURE = 1`.
-/

/-- Device categories of the engine's `DeviceType` enum (external header
`device/device.h`); only distinctness and the CPU/METAL/NONE members matter
to the code under verification. -/
inductive DeviceType where
  | none
  | cpu
  | cuda
  | optix
  | hip
  | metal
  | oneapi
  deriving Repr, DecidableEq

/-- Numeric value used to build a device mask (`DEVICE_MASK(t) = 1 << t`). -/
def DeviceType.toBit : DeviceType → Nat
  | .none => 0
  | .cpu => 1
  | .cuda => 2
  | .optix => 3
  | .hip => 4
  | .metal => 5
  | .oneapi => 6

/-- `DEVICE_MASK(type)` from `device/device.h`. -/
def deviceMask (t : DeviceType) : Nat := 2 ^ t.toBit

/-- The fields of the engine's `DeviceInfo` the app code reads:
`type`, `name`/`description`, `display_device`. -/
structure DeviceInfo where
  type : DeviceType
  name : String
  description : String
  display_device : Bool
  deriving Repr, DecidableEq

/-- `SHADINGSYSTEM_OSL` / `SHADINGSYSTEM_SVM`. -/
inductive ShadingSystem where
  | osl
  | svm
  deriving Repr, DecidableEq

/-- The fields of the engine's `SessionParams` assigned or read by
`cycles_standalone.cpp` / `cycles_ios.cpp`. -/
structure SessionParams where
  device : DeviceInfo
  samples : Int
  threads : Int
  background : Bool
  use_profiling : Bool
  tile_size : Int
  use_auto_tile : Bool
  deriving Repr, DecidableEq

/-- The one field of the engine's `SceneParams` the app code assigns. -/
structure SceneParams where
  shadingsystem : ShadingSystem
  deriving Repr, DecidableEq

/-- The camera state the app code touches: `get_full_width`,
`get_full_height`, `set_full_width`, `set_full_height`. -/
structure Camera where
  full_width : Int
  full_height : Int
  deriving Repr, DecidableEq

/-- The scene state the app code touches: the camera and the list of
created output passes (`scene->create_node<Pass>()`, named and typed). -/
structure SceneState where
  camera : Camera
  passes : List String
  deriving Repr, DecidableEq

/-- Which progress update callback was registered on the session, if any. -/
inductive UpdateCb where
  | printStatus
  | windowRedraw
  deriving Repr, DecidableEq

/-- The live `Session` object as far as the app code observes it: the
params it was built with, its owned scene, and the attached drivers and
callback. -/
structure SessionState where
  params : SessionParams
  scene : SceneState
  hasOutputDriver : Bool
  hasDisplayDriver : Bool
  updateCallback : Option UpdateCb
  deriving Repr, DecidableEq

/-- Events recording the calls the app code makes into the engine and the
windowing layer, in program order. -/
inductive Event where
  | utilLoggingInit
  | pathInit
  | enumDevices (mask : Nat)
  | createSession
  | setOutputDriver
  | setDisplayDriver
  | setUpdateCallback (cb : UpdateCb)
  | readSceneXml (path : String)
  | readSceneUsd (path : String)
  | reconcileResolution
  | computeViewplane
  | createPass (name : String)
  | resetSession (w h fw fh : Int)
  | startSession
  | waitSession
  | deleteSession
  | windowLoop
  deriving Repr, DecidableEq

/-! ## ProgressReporter (`session_print`, identical in both hosts) -/

/-- Result of one `session_print` call: the new value of the
`static int maxlen`, the number of padding spaces emitted by the
`for (int i = len; i < maxlen; i++) printf(" ")` loop, and the characters
written to stdout before the flush. -/
structure PrintResult where
  maxlen : Nat
  padding : Nat
  written : String
  deriving Repr, DecidableEq

/-- `session_print` (`cycles_standalone.cpp:54-70` = `cycles_ios.cpp:187-200`):
prints `"\r" ++ str`, raises the tracked maximum line length, then pads with
spaces from the string's length up to the (already-raised) maximum. -/
def session_print (maxlen : Nat) (str : String) : PrintResult :=
  let len := str.length
  let maxlen2 := max len maxlen
  { maxlen := maxlen2
    padding := maxlen2 - len
    written := "\r" ++ str ++ String.mk (List.replicate (maxlen2 - len) ' ') }

/-- The two status lines of the C4 scenario, printed in order through one
reporter starting from the initial `maxlen = 0`. -/
def c4_first : PrintResult := session_print 0 "Progress 01.00   Rendering"

/-- Second print of the C4 scenario, continuing from the first. -/
def c4_second : PrintResult := session_print c4_first.maxlen "Progress 50.00   Done"


/-! ## Standalone host (`cycles_standalone.cpp`) -/

/-- Mirror of the global `struct Options` singleton of
`cycles_standalone.cpp` (the `Scene *scene` member always aliases
`session->scene` and is folded into the session model). -/
structure StandaloneOptions where
  session : Option SessionState
  filepath : String
  width : Int
  height : Int
  scene_params : SceneParams
  session_params : SessionParams
  quiet : Bool
  show_help : Bool
  interactive : Bool
  pause : Bool
  output_filepath : String
  output_pass : String
  deriving Repr, DecidableEq

/-- Environment: the external collaborators the app code calls, plus the
compile-time feature flags of the translation units. -/
structure Env where
  availableTypes : List DeviceType
  availableDevices : Nat → List DeviceInfo
  typeFromString : String → DeviceType
  defaultCamera : Camera
  loadCamera : String → Camera → Camera
  versionString : String
  withOsl : Bool
  withUsd : Bool
  withGui : Bool
  withLogging : Bool

/-- `DEVICE_MASK_ALL` (the default mask of `Device::available_devices`). -/
def maskAll : Nat := 2 ^ 32 - 1

/-- `Device::string_from_type` for the categories modelled here. -/
def deviceTypeString : DeviceType → String
  | .none => "NONE"
  | .cpu => "CPU"
  | .cuda => "CUDA"
  | .optix => "OPTIX"
  | .hip => "HIP"
  | .metal => "METAL"
  | .oneapi => "ONEAPI"

/-- Values held by the option variables after a successful `ap.parse`:
the bound `struct Options` fields together with the local variables of
`options_parse`. A flag that was not passed keeps its pre-parse value
(e.g. `devicename = "CPU"`, `ssname = "svm"`, `width = 1024`). -/
structure ParsedArgs where
  filepath : String
  devicename : String
  ssname : String
  background : Bool
  quiet : Bool
  samples : Int
  output_filepath : String
  threads : Int
  width : Int
  height : Int
  tile_size : Int
  list : Bool
  profile : Bool
  debug : Bool
  verbosity : Int
  help : Bool
  version : Bool
  deriving Repr, DecidableEq

/-- Result of `options_parse`: either the process exited with `code`
(after printing `output`), or the populated options. -/
inductive ParseOutcome where
  | exited (code : Nat) (output : List String)
  | ok (o : StandaloneOptions) (output : List String)
  deriving Repr, DecidableEq

/-- Output of the `--list-devices` branch. -/
def listDevicesOutput (env : Env) : List String :=
  "Devices:" ::
    (env.availableDevices maskAll).map fun i =>
      "    " ++ deviceTypeString i.type ++ i.description ++
        (if i.display_device then " (display)" else "")

/-- The trailing "handle invalid configurations" chain of `options_parse`
(`cycles_standalone.cpp:339-364`), over the populated options `o5` and the
`device_available` flag. -/
def handle_invalid_config (env : Env) (a : ParsedArgs)
    (o5 : StandaloneOptions) (device_available : Bool) : ParseOutcome :=
  if o5.session_params.device.type = DeviceType.none ∨ device_available = false then
    ParseOutcome.exited 1 ["Unknown device: " ++ a.devicename]
  else if env.withOsl = true ∧ ¬(a.ssname = "osl" ∨ a.ssname = "svm") then
    ParseOutcome.exited 1 ["Unknown shading system: " ++ a.ssname]
  else if env.withOsl = true ∧ o5.scene_params.shadingsystem = ShadingSystem.osl ∧
      o5.session_params.device.type ≠ DeviceType.cpu then
    ParseOutcome.exited 1 ["OSL shading system only works with CPU device"]
  else if o5.session_params.samples < 0 then
    ParseOutcome.exited 1 ["Invalid number of samples: " ++ toString o5.session_params.samples]
  else if o5.filepath = "" then
    ParseOutcome.exited 1 ["No file path specified"]
  else
    ParseOutcome.ok o5 []

/-- `options_parse` (`cycles_standalone.cpp:188-364`) from the point after
`ap.parse` succeeded; `defP`/`defSc` are the default-constructed
`SessionParams`/`SceneParams` of the zero-initialised global `options`. -/
def options_parse (env : Env) (defP : SessionParams) (defSc : SceneParams)
    (a : ParsedArgs) : ParseOutcome :=
  let o0 : StandaloneOptions :=
    { session := none
      filepath := a.filepath
      width := a.width
      height := a.height
      scene_params := defSc
      session_params :=
        { defP with
            background := a.background
            samples := a.samples
            threads := a.threads
            tile_size := a.tile_size
            use_auto_tile := false }
      quiet := a.quiet
      show_help := false
      interactive := false
      pause := false
      output_filepath := a.output_filepath
      output_pass := "" }
  if a.list = true then
    ParseOutcome.exited 0 (listDevicesOutput env)
  else if a.version = true then
    ParseOutcome.exited 0 [env.versionString]
  else if a.help = true ∨ a.filepath = "" then
    ParseOutcome.exited 0 ["Usage: cycles [options] file.xml"]
  else
    let o1 := { o0 with session_params.use_profiling := a.profile }
    let o2 :=
      if a.ssname = "osl" then { o1 with scene_params.shadingsystem := ShadingSystem.osl }
      else if a.ssname = "svm" then { o1 with scene_params.shadingsystem := ShadingSystem.svm }
      else o1
    let o3 := if env.withGui = false then { o2 with session_params.background := true } else o2
    let o4 :=
      if o3.session_params.tile_size > 0 then { o3 with session_params.use_auto_tile := true }
      else o3
    let device_type := env.typeFromString a.devicename
    let devices := env.availableDevices (deviceMask device_type)
    let found :=
      match devices with
      | [] => (o4, false)
      | d :: _ => ({ o4 with session_params.device := d }, true)
    handle_invalid_config env a found.1 found.2

/-- The camera width/height override of `scene_init`
(`cycles_standalone.cpp:115-123` = `cycles_ios.cpp:113-121`, identical
code in both hosts): returns the resulting `(options.width, options.height)`
and the resulting camera. -/
def reconcile_camera (w h : Int) (cam : Camera) : (Int × Int) × Camera :=
  if ¬(w = 0 ∨ h = 0) then ((w, h), { full_width := w, full_height := h })
  else ((cam.full_width, cam.full_height), cam)

/-- Which scene-reader call the `WITH_USD` dispatch selects
(`cycles_standalone.cpp:104-113` = `cycles_ios.cpp:103-111`). -/
def sceneReadEvent (env : Env) (path : String) : Event :=
  if env.withUsd = true ∧ (path.toLower.endsWith ".xml") = false then
    Event.readSceneUsd path
  else Event.readSceneXml path

/-- Body of `scene_init` (`cycles_standalone.cpp:100-127`) acting on the
session the global `options.session` points to: read the scene file
(mutating the camera), reconcile the resolution, recompute the viewplane.
Returns the new `(options.width, options.height)`, the mutated session and
the calls made, in order. -/
def scene_init_core (env : Env) (filepath : String) (w h : Int) (sess : SessionState) :
    (Int × Int) × SessionState × List Event :=
  let cam1 := env.loadCamera filepath sess.scene.camera
  let r := reconcile_camera w h cam1
  (r.1, { sess with scene := { sess.scene with camera := r.2 } },
   [sceneReadEvent env filepath, Event.reconcileResolution, Event.computeViewplane])

/-- `scene_init` on the full options state; `none` models the null-pointer
dereference of `options.session->scene` when no session exists (the sole
caller, `session_init`, has always just created one). -/
def scene_init (env : Env) (o : StandaloneOptions) : Option (StandaloneOptions × List Event) :=
  match o.session with
  | none => none
  | some sess =>
    let r := scene_init_core env o.filepath o.width o.height sess
    some ({ o with session := some r.2.1, width := r.1.1, height := r.1.2 }, r.2.2)

/-- `session_init` (`cycles_standalone.cpp:129-164`): create the session,
attach drivers and the progress callback, load the scene, create the
output pass, reset the buffers and start the job. -/
def session_init (env : Env) (o0 : StandaloneOptions) : StandaloneOptions × List Event :=
  let o := { o0 with output_pass := "combined" }
  let sess : SessionState :=
    { params := o.session_params
      scene := { camera := env.defaultCamera, passes := [] }
      hasOutputDriver := false
      hasDisplayDriver := false
      updateCallback := none }
  let step1 :=
    if env.withGui = true ∧ o.session_params.background = false then
      ({ sess with hasDisplayDriver := true }, [Event.createSession, Event.setDisplayDriver])
    else (sess, [Event.createSession])
  let step2 :=
    if ¬(o.output_filepath = "") then
      ({ step1.1 with hasOutputDriver := true }, step1.2 ++ [Event.setOutputDriver])
    else step1
  let step3 :=
    if o.session_params.background = true ∧ o.quiet = false then
      ({ step2.1 with updateCallback := some UpdateCb.printStatus },
       step2.2 ++ [Event.setUpdateCallback UpdateCb.printStatus])
    else if env.withGui = true then
      ({ step2.1 with updateCallback := some UpdateCb.windowRedraw },
       step2.2 ++ [Event.setUpdateCallback UpdateCb.windowRedraw])
    else step2
  let r := scene_init_core env o.filepath o.width o.height step3.1
  let w2 := r.1.1
  let h2 := r.1.2
  let sess4 := { r.2.1 with scene := { r.2.1.scene with passes := r.2.1.scene.passes ++ [o.output_pass] } }
  ({ o with session := some sess4, width := w2, height := h2 },
   step3.2 ++ r.2.2 ++
     [Event.createPass o.output_pass, Event.resetSession w2 h2 w2 h2, Event.startSession])

/-- The standalone process state relevant to teardown: the options global
plus the `static int maxlen` of `session_print`. -/
structure StandaloneProc where
  o : StandaloneOptions
  maxlen : Nat
  deriving Repr, DecidableEq

/-- `session_exit` (`cycles_standalone.cpp:166-177`): delete the session if
one exists and null the pointer; then, whenever running background and not
quiet, print "Finished Rendering." through `session_print` followed by a
newline — note this print is outside the `if (options.session)` guard.
Returns the new state, the engine calls made, and the stdout strings. -/
def session_exit (p : StandaloneProc) : StandaloneProc × List Event × List String :=
  let step1 :=
    match p.o.session with
    | some _ => ({ p.o with session := none }, [Event.deleteSession])
    | none => (p.o, ([] : List Event))
  if p.o.session_params.background = true ∧ p.o.quiet = false then
    let r := session_print p.maxlen "Finished Rendering."
    (⟨step1.1, r.maxlen⟩, step1.2, [r.written, "\n"])
  else
    (⟨step1.1, p.maxlen⟩, step1.2, [])

/-- Result of a whole standalone run. -/
structure RunResult where
  exitCode : Nat
  events : List Event
  output : List String
  deriving Repr, DecidableEq

/-- `main` (`cycles_standalone.cpp:370-401`): logging/path init, parse
options (possibly exiting), then either the background path
(`session_init`; `wait`; `session_exit`) or, with GUI support compiled in
and background off, the interactive window loop whose init/exit callbacks
are `session_init`/`session_exit`. `m0` is the value of `session_print`'s
static `maxlen` when teardown runs (status callbacks may have raised it). -/
def standalone_main (env : Env) (defP : SessionParams) (defSc : SceneParams)
    (m0 : Nat) (a : ParsedArgs) : RunResult :=
  let evs0 := [Event.utilLoggingInit, Event.pathInit]
  match options_parse env defP defSc a with
  | ParseOutcome.exited c out => { exitCode := c, events := evs0, output := out }
  | ParseOutcome.ok o out =>
    if env.withGui = false ∨ o.session_params.background = true then
      let r1 := session_init env o
      let r2 := session_exit ⟨r1.1, m0⟩
      { exitCode := 0
        events := evs0 ++ r1.2 ++ [Event.waitSession] ++ r2.2.1
        output := out ++ r2.2.2 }
    else
      let r1 := session_init env o
      let r2 := session_exit ⟨r1.1, m0⟩
      { exitCode := 0
        events := evs0 ++ [Event.windowLoop] ++ r1.2 ++ r2.2.1
        output := out ++ r2.2.2 }

/-! ## Embedding host (`cycles_ios.h`, `cycles_ios.cpp`) -/

/-- `struct CyclesInitParams` (`cycles_ios.h:5-17`). The `device_name`
field is absent from the header but is read by `cycles_ios.cpp:69`
(`params->device_name`, used only in the no-device error message); it is
included here so that the `.cpp` behaviour can be stated. -/
structure CyclesInitParams where
  width : Int
  height : Int
  filepath : String
  samples : Int
  threads : Int
  shading_system : String
  use_auto_tile : Bool
  tile_size : Int
  background : Bool
  quiet : Bool
  use_profiling : Bool
  device_name : String
  deriving Repr, DecidableEq

/-- The global `struct Options` of `cycles_ios.cpp` is field-for-field the
one of `cycles_standalone.cpp`. -/
abbrev IosOptions := StandaloneOptions

/-- Outcome of `validate_options` (`cycles_ios.cpp:147-159`): each failing
check prints its reason and calls `exit(EXIT_FAILURE)`. -/
inductive ValidateResult where
  | ok
  | exitFailure (msg : String)
  deriving Repr, DecidableEq

/-- `validate_options` (`cycles_ios.cpp:147-159`). It reads the *current*
global options — its only caller runs it before the params are copied in. -/
def validate_options (o : IosOptions) : ValidateResult :=
  if o.session_params.device.type = DeviceType.none then
    ValidateResult.exitFailure ("Unknown device: " ++ o.session_params.device.name)
  else if o.session_params.samples < 0 then
    ValidateResult.exitFailure ("Invalid number of samples: " ++ toString o.session_params.samples)
  else if o.filepath = "" then
    ValidateResult.exitFailure "No file path specified"
  else ValidateResult.ok

/-- Result of one embedding entry point: `exited = some code` when the call
ran into `exit()`, the resulting globals, the engine calls and the error
output. -/
structure IosResult where
  exited : Option Nat
  o : IosOptions
  events : List Event
  output : List String
  deriving Repr, DecidableEq

/-- `cycles_ios_initialize` (`cycles_ios.cpp:42-130`), named
`cycles_ios_init` here. Order is the source's: `validate_options` first
(before the params are applied), then logging/path init, the copy of the
params into the globals, Metal-only device enumeration, shading-system
selection, session construction, driver/callback attachment, scene load,
resolution reconciliation, viewplane recomputation, pass creation, buffer
reset and start. -/
def cycles_ios_init (env : Env) (p : CyclesInitParams) (o0 : IosOptions) : IosResult :=
  match validate_options o0 with
  | ValidateResult.exitFailure msg =>
    { exited := some 1, o := o0, events := [], output := [msg] }
  | ValidateResult.ok =>
    let evs := [Event.utilLoggingInit, Event.pathInit]
    let o1 := { o0 with
      width := p.width
      height := p.height
      filepath := p.filepath
      quiet := p.quiet }
    let o2 := { o1 with session_params := { o1.session_params with
      samples := p.samples
      threads := p.threads
      background := p.background
      use_profiling := p.use_profiling
      tile_size := p.tile_size } }
    let o3 := { o2 with session_params.use_auto_tile :=
      if o2.session_params.tile_size > 0 then true else false }
    let devices := env.availableDevices (deviceMask DeviceType.metal)
    let evs := evs ++ [Event.enumDevices (deviceMask DeviceType.metal)]
    match devices with
    | [] =>
      { exited := none, o := o3, events := evs
        output := ["No matching device found for: " ++ p.device_name] }
    | d :: _ =>
      let o4 := { o3 with session_params.device := d }
      let o5 :=
        if p.shading_system = "osl" then
          { o4 with scene_params.shadingsystem := ShadingSystem.osl }
        else
          { o4 with scene_params.shadingsystem := ShadingSystem.svm }
      if env.withOsl = true ∧ o5.scene_params.shadingsystem = ShadingSystem.osl ∧
          o5.session_params.device.type ≠ DeviceType.cpu then
        { exited := none, o := o5, events := evs
          output := ["OSL shading system only works with CPU device"] }
      else
        let o6 := { o5 with output_pass := "combined" }
        let sess : SessionState :=
          { params := o6.session_params
            scene := { camera := env.defaultCamera, passes := [] }
            hasOutputDriver := false
            hasDisplayDriver := false
            updateCallback := none }
        let step2 :=
          if ¬(o6.output_filepath = "") then
            ({ sess with hasOutputDriver := true },
             [Event.createSession, Event.setOutputDriver])
          else (sess, [Event.createSession])
        let step3 :=
          if o6.session_params.background = true ∧ o6.quiet = false then
            ({ step2.1 with updateCallback := some UpdateCb.printStatus },
             step2.2 ++ [Event.setUpdateCallback UpdateCb.printStatus])
          else step2
        let r := scene_init_core env o6.filepath o6.width o6.height step3.1
        let w2 := r.1.1
        let h2 := r.1.2
        let sess4 := { r.2.1 with scene :=
          { r.2.1.scene with passes := r.2.1.scene.passes ++ [o6.output_pass] } }
        { exited := none
          o := { o6 with session := some sess4, width := w2, height := h2 }
          events := evs ++ step3.2 ++ r.2.2 ++
            [Event.createPass o6.output_pass, Event.resetSession w2 h2 w2 h2,
             Event.startSession]
          output := [] }

/-- `cycles_ios_render` (`cycles_ios.cpp:132-137`): `wait()` on the session
if one is active, otherwise nothing. -/
def cycles_ios_render (o : IosOptions) : IosOptions × List Event :=
  match o.session with
  | some _ => (o, [Event.waitSession])
  | none => (o, [])

/-- `cycles_ios_cleanup` (`cycles_ios.cpp:139-145`): delete the session if
one is active and null the pointer, otherwise nothing. -/
def cycles_ios_cleanup (o : IosOptions) : IosOptions × List Event :=
  match o.session with
  | some _ => ({ o with session := none }, [Event.deleteSession])
  | none => (o, [])

/-- One call of the three-call embedding surface. -/
inductive IosOp where
  | init (p : CyclesInitParams)
  | render
  | cleanup
  deriving Repr, DecidableEq

/-- Embedding process state: `halted = some code` once `exit()` has run. -/
structure IosProc where
  halted : Option Nat
  o : IosOptions
  events : List Event
  output : List String
  deriving Repr, DecidableEq

/-- One host call against the embedding process. -/
def iosStep (env : Env) (s : IosProc) (op : IosOp) : IosProc :=
  match s.halted with
  | some _ => s
  | none =>
    match op with
    | IosOp.init p =>
      let r := cycles_ios_init env p s.o
      { halted := r.exited, o := r.o
        events := s.events ++ r.events, output := s.output ++ r.output }
    | IosOp.render =>
      let r := cycles_ios_render s.o
      { s with o := r.1, events := s.events ++ r.2 }
    | IosOp.cleanup =>
      let r := cycles_ios_cleanup s.o
      { s with o := r.1, events := s.events ++ r.2 }

/-- The zero-initialised globals of `cycles_ios.cpp` at process start;
`defP`/`defSc` are the default-constructed engine param structs. -/
def iosOptions0 (defP : SessionParams) (defSc : SceneParams) : IosOptions :=
  { session := none
    filepath := ""
    width := 0
    height := 0
    scene_params := defSc
    session_params := defP
    quiet := false
    show_help := false
    interactive := false
    pause := false
    output_filepath := ""
    output_pass := "" }

/-- Embedding process at start. -/
def iosProc0 (defP : SessionParams) (defSc : SceneParams) : IosProc :=
  { halted := none, o := iosOptions0 defP defSc, events := [], output := [] }

/-- A whole host session: the given calls in order. -/
def iosRun (env : Env) (ops : List IosOp) (defP : SessionParams) (defSc : SceneParams) : IosProc :=
  ops.foldl (iosStep env) (iosProc0 defP defSc)

/-! ## Concrete fixtures for witnesses and counterexamples -/

/-- A CPU device of the test environment. -/
def cpuDev : DeviceInfo :=
  { type := DeviceType.cpu, name := "CPU", description := "Test CPU", display_device := false }

/-- A Metal device of the test environment. -/
def metalDev : DeviceInfo :=
  { type := DeviceType.metal, name := "Metal", description := "Apple GPU", display_device := true }

/-- Test environment: one CPU device, one Metal device, an XML scene whose
camera resolution is 1920 x 1080, every optional feature compiled out. -/
def env0 : Env :=
  { availableTypes := [DeviceType.cpu]
    availableDevices := fun m =>
      if m = deviceMask DeviceType.cpu then [cpuDev]
      else if m = deviceMask DeviceType.metal then [metalDev]
      else []
    typeFromString := fun s => if s = "CPU" then DeviceType.cpu else DeviceType.none
    defaultCamera := { full_width := 1024, full_height := 512 }
    loadCamera := fun _ _ => { full_width := 1920, full_height := 1080 }
    versionString := "4.0.0"
    withOsl := false
    withUsd := false
    withGui := false
    withLogging := false }

/-- Like `env0` but with no Metal device available. -/
def env1 : Env :=
  { env0 with availableDevices := fun m =>
      if m = deviceMask DeviceType.cpu then [cpuDev] else [] }

/-- Default-constructed `SessionParams` of the test process (stands for the
engine's defaults; all theorems about defaults are parametric). -/
def defP0 : SessionParams :=
  { device := cpuDev, samples := 1024, threads := 0, background := false
    use_profiling := false, tile_size := 2048, use_auto_tile := false }

/-- Default-constructed `SceneParams` of the test process. -/
def defSc0 : SceneParams := { shadingsystem := ShadingSystem.svm }

/-- Post-parse option values of a bare `cycles` invocation: every flag at
its default, no positional file argument. -/
def args0 : ParsedArgs :=
  { filepath := "", devicename := "CPU", ssname := "svm", background := false
    quiet := false, samples := 1024, output_filepath := "", threads := 0
    width := 1024, height := 512, tile_size := 0, list := false, profile := false
    debug := false, verbosity := 1, help := false, version := false }

/-- A session object as freshly constructed. -/
def sess0 : SessionState :=
  { params := defP0
    scene := { camera := { full_width := 0, full_height := 0 }, passes := [] }
    hasOutputDriver := false, hasDisplayDriver := false, updateCallback := none }

/-! ## Claims -/

/-- C4, counterexample. The claim states the second print pads with exactly
4 trailing spaces. In the code the format string yields 21 characters for
"Progress 50.00   Done" (the spec miscounts it as 22), so the padding loop
runs from 21 up to the tracked maximum 26 and emits 5 spaces. -/
theorem C4_counterexample :
    ¬(c4_second.padding = 4 ∧ c4_second.maxlen = 26) := by decide

/-- C4, amended: after printing "Progress 01.00   Rendering" (26 chars) and
then "Progress 50.00   Done" (21 chars) through the same reporter, the
second print pads with exactly 5 trailing spaces before flushing, and the
tracked maximum line length after both prints is 26. -/
theorem C4_thm :
    c4_first.maxlen = 26 ∧
    c4_first.padding = 0 ∧
    c4_second.padding = 5 ∧
    c4_second.maxlen = 26 ∧
    c4_second.written = "\rProgress 50.00   Done     " := by decide

/-- C5: for every configuration and loaded scene, if both requested width
and height are nonzero then the post-reconciliation resolution is exactly
the requested one and it overwrites the camera; otherwise both dimensions
are derived from the loaded camera's resolution (which stays unchanged).
`scene_init` is the standalone reconciliation site; the embedding site runs
the identical `scene_init_core`. -/
theorem C5_thm (env : Env) (o : StandaloneOptions) (sess : SessionState)
    (hs : o.session = some sess) :
    (¬(o.width = 0 ∨ o.height = 0) →
      ∃ o2 evs, scene_init env o = some (o2, evs) ∧
        o2.width = o.width ∧ o2.height = o.height ∧
        ∃ sess2, o2.session = some sess2 ∧
          sess2.scene.camera = { full_width := o.width, full_height := o.height }) ∧
    ((o.width = 0 ∨ o.height = 0) →
      ∃ o2 evs, scene_init env o = some (o2, evs) ∧
        o2.width = (env.loadCamera o.filepath sess.scene.camera).full_width ∧
        o2.height = (env.loadCamera o.filepath sess.scene.camera).full_height ∧
        ∃ sess2, o2.session = some sess2 ∧
          sess2.scene.camera = env.loadCamera o.filepath sess.scene.camera) := by
  constructor
  · intro h
    refine ⟨_, _, by rw [scene_init, hs], ?_, ?_, ?_⟩ <;>
      simp [scene_init_core, reconcile_camera, h]
  · intro h
    refine ⟨_, _, by rw [scene_init, hs], ?_, ?_, ?_⟩ <;>
      simp [scene_init_core, reconcile_camera, h]

/-- Options state requesting an explicit 800 x 600 resolution, with a live
session whose scene file carries a 1920 x 1080 camera. -/
def o800 : StandaloneOptions :=
  { session := some sess0, filepath := "scene.xml", width := 800, height := 600
    scene_params := defSc0, session_params := defP0, quiet := false
    show_help := false, interactive := false, pause := false
    output_filepath := "", output_pass := "" }

/-- C5, witness: explicit width=800, height=600 against a scene camera of
1920 x 1080 — the override wins and the camera is overwritten. -/
theorem C5_witness :
    ∃ o2 evs, scene_init env0 o800 = some (o2, evs) ∧
      o2.width = 800 ∧ o2.height = 600 ∧
      ∃ sess2, o2.session = some sess2 ∧
        sess2.scene.camera = { full_width := 800, full_height := 600 } :=
  (C5_thm env0 o800 sess0 rfl).1 (by decide)

/-- State at teardown of a background, non-quiet standalone run whose
session is live. -/
def procC7 : StandaloneProc :=
  { o := { o800 with session_params := { defP0 with background := true } }, maxlen := 26 }

/-- C7, counterexample. `session_exit` prints "Finished Rendering." and a
newline *outside* the `if (options.session)` guard, so a second invocation
repeats the print: the process observable state (stdout) after two
invocations differs from after one, falsifying "leaves state equivalent to
a single invocation" taken over observable behaviour. -/
theorem C7_counterexample :
    (session_exit (session_exit procC7).1).2.2 =
      ["\rFinished Rendering.       ", "\n"] ∧
    ¬(session_exit (session_exit procC7).1).2.2 = [] := by decide

/-- C7, amended: both disposal routines never fault and are idempotent on
the program state — a second `session_exit` leaves the state of the first
and deletes nothing, `cycles_ios_cleanup` composed twice equals once (with
no second engine call), and cleanup on a process that never created a
session is a no-op — but `session_exit`'s "Finished Rendering." print
(outside the session guard) is re-emitted by every invocation in
background non-quiet mode, so its stdout effect is not idempotent. -/
theorem C7_thm (p : StandaloneProc) (o : IosOptions)
    (defP : SessionParams) (defSc : SceneParams) :
    (session_exit (session_exit p).1).1 = (session_exit p).1 ∧
    (session_exit (session_exit p).1).2.1 = [] ∧
    cycles_ios_cleanup (cycles_ios_cleanup o).1 = ((cycles_ios_cleanup o).1, []) ∧
    cycles_ios_cleanup (iosOptions0 defP defSc) = (iosOptions0 defP defSc, []) := by
  refine ⟨?_, ?_, ?_, ?_⟩
  · unfold session_exit session_print
    rcases p with ⟨o1, m⟩
    rcases h : o1.session with _ | s <;>
      simp [h] <;> split <;>
        simp_all [Nat.max_eq_right, Nat.le_max_left, ← Nat.max_assoc]
  · unfold session_exit
    rcases p with ⟨o1, m⟩
    rcases h : o1.session with _ | s <;> simp [h] <;> split <;> simp_all
  · unfold cycles_ios_cleanup
    rcases h : o.session with _ | s <;> simp [h]
  · unfold cycles_ios_cleanup iosOptions0
    simp

/-- A well-formed embedding init call: valid scene path, positive samples. -/
def pOk : CyclesInitParams :=
  { width := 800, height := 600, filepath := "scene.xml", samples := 16
    threads := 0, shading_system := "svm", use_auto_tile := false
    tile_size := 0, background := true, quiet := false, use_profiling := false
    device_name := "Metal" }

/-- C2: evaluating the code at the failing input. The first
`cycles_ios_initialize` call of a fresh embedding process — here with fully
valid params — runs `validate_options` *before* the params are copied into
the globals, so validation sees the initial empty `options.filepath`,
prints "No file path specified" and calls `exit(EXIT_FAILURE)`: the host
process is terminated (halted with status 1) instead of control returning
to the caller, and no session exists. -/
theorem C2_thm :
    (iosRun env0 [IosOp.init pOk] defP0 defSc0).halted = some 1 ∧
    (iosRun env0 [IosOp.init pOk] defP0 defSc0).output = ["No file path specified"] ∧
    (iosRun env0 [IosOp.init pOk] defP0 defSc0).o.session = none := by decide

/-- C3, counterexample. Invoking the standalone binary with a missing
(empty) file path and all other options at their defaults exits with
status 0 after printing usage — `options_parse` treats an empty file path
like `--help` (`cycles_standalone.cpp:307-310`) — not with status 1 as the
claim states; the "No file path specified" `exit(EXIT_FAILURE)` branch at
lines 360-363 is unreachable. -/
theorem C3_counterexample :
    (standalone_main env0 defP0 defSc0 0 args0).exitCode = 0 ∧
    (standalone_main env0 defP0 defSc0 0 args0).output =
      ["Usage: cycles [options] file.xml"] := by decide

/-- C3, amended: the standalone process exits with status 0 on
`--list-devices`, `--version`, `--help` *and on a missing (empty) file
path* (which prints usage exactly like `--help`); it exits with status 1
on an unknown/unavailable device, on an unsupported shading-system/device
pairing (OSL on a non-CPU device, when OSL support is compiled in), and on
a negative sample count, provided a file path was given. -/
theorem C3_thm (env : Env) (defP : SessionParams) (defSc : SceneParams)
    (m0 : Nat) (a : ParsedArgs) :
    (a.list = true → (standalone_main env defP defSc m0 a).exitCode = 0) ∧
    (a.list = false → a.version = true →
      (standalone_main env defP defSc m0 a).exitCode = 0) ∧
    (a.list = false → a.version = false → a.help = true →
      (standalone_main env defP defSc m0 a).exitCode = 0) ∧
    (a.list = false → a.version = false → a.filepath = "" →
      (standalone_main env defP defSc m0 a).exitCode = 0) ∧
    (a.list = false → a.version = false → a.help = false → a.filepath ≠ "" →
      env.availableDevices (deviceMask (env.typeFromString a.devicename)) = [] →
      (standalone_main env defP defSc m0 a).exitCode = 1) ∧
    (∀ d l, a.list = false → a.version = false → a.help = false → a.filepath ≠ "" →
      env.availableDevices (deviceMask (env.typeFromString a.devicename)) = d :: l →
      d.type ≠ DeviceType.none →
      env.withOsl = true → a.ssname = "osl" → d.type ≠ DeviceType.cpu →
      (standalone_main env defP defSc m0 a).exitCode = 1) ∧
    (∀ d l, a.list = false → a.version = false → a.help = false → a.filepath ≠ "" →
      env.availableDevices (deviceMask (env.typeFromString a.devicename)) = d :: l →
      d.type ≠ DeviceType.none →
      a.ssname = "svm" → a.samples < 0 →
      (standalone_main env defP defSc m0 a).exitCode = 1) := by
  refine ⟨?_, ?_, ?_, ?_, ?_, ?_, ?_⟩
  · intro h1
    simp [standalone_main, options_parse, h1]
  · intro h1 h2
    simp [standalone_main, options_parse, h1, h2]
  · intro h1 h2 h3
    simp [standalone_main, options_parse, h1, h2, h3]
  · intro h1 h2 h3
    simp [standalone_main, options_parse, h1, h2, h3]
  · intro h1 h2 h3 h4 h5
    simp [standalone_main, options_parse, handle_invalid_config, h1, h2, h3, h4, h5]
  · intro d l h1 h2 h3 h4 h5 h6 h7 h8 h9
    by_cases hg : env.withGui = false <;> by_cases ht : (0 : Int) < a.tile_size <;>
      simp [standalone_main, options_parse, handle_invalid_config, h1, h2, h3, h4, h5, h6, h7, h8, h9, hg, ht]
  · intro d l h1 h2 h3 h4 h5 h6 h7 h8
    by_cases hg : env.withGui = false <;> by_cases ht : (0 : Int) < a.tile_size <;>
      simp [standalone_main, options_parse, handle_invalid_config, h1, h2, h3, h4, h5, h6, h7, h8, hg, ht]

/-- C3, witness: `--list-devices` exits 0; an unknown device name exits 1;
a negative sample count with a file path exits 1. -/
theorem C3_witness :
    (standalone_main env0 defP0 defSc0 0 { args0 with list := true }).exitCode = 0 ∧
    (standalone_main env0 defP0 defSc0 0
      { args0 with filepath := "scene.xml", devicename := "Foo" }).exitCode = 1 ∧
    (standalone_main env0 defP0 defSc0 0
      { args0 with filepath := "scene.xml", samples := -1 }).exitCode = 1 :=
  ⟨(C3_thm env0 defP0 defSc0 0 { args0 with list := true }).1 rfl,
   (C3_thm env0 defP0 defSc0 0
      { args0 with filepath := "scene.xml", devicename := "Foo" }).2.2.2.2.1
      rfl rfl rfl (by decide) (by decide),
   (C3_thm env0 defP0 defSc0 0
      { args0 with filepath := "scene.xml", samples := -1 }).2.2.2.2.2.2
      cpuDev [] rfl rfl rfl (by decide) (by decide) (by decide) rfl (by decide)⟩

/-- With an empty configured file path, `validate_options` always exits,
whichever of its three checks fires first. -/
theorem validate_options_empty_filepath (o : IosOptions) (h : o.filepath = "") :
    ∃ msg, validate_options o = ValidateResult.exitFailure msg := by
  unfold validate_options
  by_cases h1 : o.session_params.device.type = DeviceType.none
  · exact ⟨_, by rw [if_pos h1]⟩
  · by_cases h2 : o.session_params.samples < 0
    · exact ⟨_, by rw [if_neg h1, if_pos h2]⟩
    · exact ⟨_, by rw [if_neg h1, if_neg h2, if_pos h]⟩

/-- Invariant of the embedding trace semantics: the session pointer stays
null, no `Session` is ever constructed, and the configured file path stays
the initial empty string — the first `cycles_ios_initialize` call always
exits inside `validate_options` before the params are copied in. -/
theorem ios_run_inv (env : Env) (ops : List IosOp) (s : IosProc)
    (h1 : s.o.session = none) (h2 : s.o.filepath = "")
    (h3 : Event.createSession ∉ s.events) :
    (ops.foldl (iosStep env) s).o.session = none ∧
    (ops.foldl (iosStep env) s).o.filepath = "" ∧
    Event.createSession ∉ (ops.foldl (iosStep env) s).events := by
  induction ops generalizing s with
  | nil => exact ⟨h1, h2, h3⟩
  | cons op rest ih =>
    simp only [List.foldl_cons]
    have hstep : (iosStep env s op).o.session = none ∧
        (iosStep env s op).o.filepath = "" ∧
        Event.createSession ∉ (iosStep env s op).events := by
      rcases hh : s.halted with _ | c
      · rcases op with p | _ | _
        · obtain ⟨msg, hv⟩ := validate_options_empty_filepath s.o h2
          simp [iosStep, hh, cycles_ios_init, hv, h1, h2, h3]
        · simp [iosStep, hh, cycles_ios_render, h1, h2, h3]
        · simp [iosStep, hh, cycles_ios_cleanup, h1, h2, h3]
      · simp [iosStep, hh, h1, h2, h3]
    exact ih _ hstep.1 hstep.2.1 hstep.2.2

/-- With a negative post-parse sample count, a file path, and none of the
exit-0 flags, `options_parse` exits with status 1 (at the samples check or
at an earlier failing check). -/
theorem options_parse_neg_samples (env : Env) (defP : SessionParams)
    (defSc : SceneParams) (a : ParsedArgs)
    (hs : a.samples < 0) (hf : a.filepath ≠ "") (hh : a.help = false)
    (hl : a.list = false) (hv : a.version = false) :
    ∃ msg, options_parse env defP defSc a = ParseOutcome.exited 1 msg := by
  have key : ∀ (o5 : StandaloneOptions) (avail : Bool),
      o5.session_params.samples < 0 →
      ∃ msg, handle_invalid_config env a o5 avail = ParseOutcome.exited 1 msg := by
    intro o5 avail h5
    unfold handle_invalid_config
    split_ifs with k1 k2 k3
    · exact ⟨_, rfl⟩
    · exact ⟨_, rfl⟩
    · exact ⟨_, rfl⟩
    · exact ⟨_, rfl⟩
  rcases hd : env.availableDevices (deviceMask (env.typeFromString a.devicename)) with _ | ⟨d, l⟩ <;>
    by_cases hg : env.withGui = false <;> by_cases ht : (0 : Int) < a.tile_size <;>
      by_cases hso : a.ssname = "osl" <;> by_cases hsv : a.ssname = "svm" <;>
        simp [options_parse, hf, hh, hl, hv, hd, hg, ht, hso, hsv] <;>
          exact key _ _ (by simp [hs])

/-- C1, counterexample. A standalone run whose configured sample count is
negative but whose file path is missing exits with status 0 after printing
usage — the empty-file-path usage branch precedes every validation check —
so for this run validation does not fail with a `ConfigurationError`,
contradicting the claim's "for every run ... validation fails". -/
theorem C1_counterexample :
    (standalone_main env0 defP0 defSc0 0 { args0 with samples := -1 }).exitCode = 0 ∧
    (standalone_main env0 defP0 defSc0 0 { args0 with samples := -1 }).output =
      ["Usage: cycles [options] file.xml"] := by decide

/-- C1, amended: with a negative sample count, (a) a standalone run that
passes a file path (and none of the exit-0 listing flags) is rejected with
exit status 1 before any `Session` is constructed; (b) a standalone run
without a file path exits 0 at the usage branch, also constructing no
`Session`; and (c) in embedding mode no call sequence ever constructs a
`Session` — in particular no initialize call whose params carry negative
samples does — because the first `cycles_ios_initialize` call exits inside
`validate_options` on the initial empty file path, before the caller's
params (including the samples value) are copied into the globals. -/
theorem C1_thm :
    (∀ (env : Env) (defP : SessionParams) (defSc : SceneParams) (m0 : Nat) (a : ParsedArgs),
      a.samples < 0 → a.filepath ≠ "" → a.help = false → a.list = false →
      a.version = false →
      (standalone_main env defP defSc m0 a).exitCode = 1 ∧
      Event.createSession ∉ (standalone_main env defP defSc m0 a).events) ∧
    (∀ (env : Env) (defP : SessionParams) (defSc : SceneParams) (m0 : Nat) (a : ParsedArgs),
      a.list = false → a.version = false → a.filepath = "" →
      (standalone_main env defP defSc m0 a).exitCode = 0 ∧
      Event.createSession ∉ (standalone_main env defP defSc m0 a).events) ∧
    (∀ (env : Env) (defP : SessionParams) (defSc : SceneParams) (ops : List IosOp),
      (iosRun env ops defP defSc).o.session = none ∧
      Event.createSession ∉ (iosRun env ops defP defSc).events) := by
  refine ⟨?_, ?_, ?_⟩
  · intro env defP defSc m0 a hs hf hh hl hv
    obtain ⟨msg, hm⟩ := options_parse_neg_samples env defP defSc a hs hf hh hl hv
    constructor <;> simp [standalone_main, hm]
  · intro env defP defSc m0 a hl hv hf
    constructor <;> simp [standalone_main, options_parse, hl, hv, hf]
  · intro env defP defSc ops
    have h := ios_run_inv env ops (iosProc0 defP defSc)
      (by simp [iosProc0, iosOptions0]) (by simp [iosProc0, iosOptions0])
      (by simp [iosProc0])
    simp only [iosRun]
    exact ⟨h.1, h.2.2⟩

/-- C1, witness: a standalone run of `cycles --samples -2 scene.xml` exits
1 with no session; an embedding call carrying samples = -2 leaves the
session pointer null and constructs nothing. -/
theorem C1_witness :
    ((standalone_main env0 defP0 defSc0 0
        { args0 with filepath := "scene.xml", samples := -2 }).exitCode = 1 ∧
      Event.createSession ∉ (standalone_main env0 defP0 defSc0 0
        { args0 with filepath := "scene.xml", samples := -2 }).events) ∧
    ((iosRun env0 [IosOp.init { pOk with samples := -2 }] defP0 defSc0).o.session = none ∧
      Event.createSession ∉
        (iosRun env0 [IosOp.init { pOk with samples := -2 }] defP0 defSc0).events) :=
  ⟨C1_thm.1 env0 defP0 defSc0 0 { args0 with filepath := "scene.xml", samples := -2 }
      (by decide) (by decide) rfl rfl rfl,
   C1_thm.2.2 env0 defP0 defSc0 [IosOp.init { pOk with samples := -2 }]⟩

/-- The scene-read dispatch produces one of the two read events and nothing
else. -/
theorem sceneReadEvent_cases (env : Env) (f : String) :
    sceneReadEvent env f = Event.readSceneUsd f ∨ sceneReadEvent env f = Event.readSceneXml f := by
  unfold sceneReadEvent
  split
  · exact Or.inl rfl
  · exact Or.inr rfl

/-- C8: when device selection enumerates zero matching devices,
`cycles_ios_initialize` returns (no `exit`), constructs no `Session`
(the session pointer stays null), and subsequent `render()`/`cleanup()`
calls are no-ops that make no engine call; in general `render()` is a
no-op whenever no session is active. -/
theorem C8_thm (env : Env) (p : CyclesInitParams) (o : IosOptions)
    (hv : validate_options o = ValidateResult.ok)
    (hd : env.availableDevices (deviceMask DeviceType.metal) = [])
    (hs : o.session = none) :
    (cycles_ios_init env p o).exited = none ∧
    (cycles_ios_init env p o).o.session = none ∧
    Event.createSession ∉ (cycles_ios_init env p o).events ∧
    cycles_ios_render (cycles_ios_init env p o).o = ((cycles_ios_init env p o).o, []) ∧
    cycles_ios_cleanup (cycles_ios_init env p o).o = ((cycles_ios_init env p o).o, []) ∧
    (∀ o2 : IosOptions, o2.session = none → cycles_ios_render o2 = (o2, [])) := by
  have key : (cycles_ios_init env p o).exited = none ∧
      (cycles_ios_init env p o).o.session = none ∧
      Event.createSession ∉ (cycles_ios_init env p o).events := by
    simp [cycles_ios_init, hv, hd, hs]
  refine ⟨key.1, key.2.1, key.2.2, ?_, ?_, ?_⟩
  · simp [cycles_ios_render, key.2.1]
  · simp [cycles_ios_cleanup, key.2.1]
  · intro o2 h2
    simp [cycles_ios_render, h2]

/-- Entry state of a hypothetical embedding attempt whose globals already
carry a valid file path (so that `validate_options` passes). -/
def oC8 : IosOptions := { iosOptions0 defP0 defSc0 with filepath := "scene.xml" }

/-- C8, witness: against an environment with no Metal device, the
initialize attempt creates nothing and the follow-up calls are no-ops. -/
theorem C8_witness :
    (cycles_ios_init env1 pOk oC8).exited = none ∧
    (cycles_ios_init env1 pOk oC8).o.session = none ∧
    Event.createSession ∉ (cycles_ios_init env1 pOk oC8).events ∧
    cycles_ios_render (cycles_ios_init env1 pOk oC8).o =
      ((cycles_ios_init env1 pOk oC8).o, []) ∧
    cycles_ios_cleanup (cycles_ios_init env1 pOk oC8).o =
      ((cycles_ios_init env1 pOk oC8).o, []) ∧
    cycles_ios_render oC8 = (oC8, []) := by
  have h := C8_thm env1 pOk oC8 (by decide) (by decide) rfl
  exact ⟨h.1, h.2.1, h.2.2.1, h.2.2.2.1, h.2.2.2.2.1, h.2.2.2.2.2 oC8 rfl⟩

/-- True when every device enumeration in the trace uses the Metal-only
mask `DEVICE_MASK(DEVICE_METAL)`. -/
def enumMetalOnly (tr : List Event) : Bool :=
  tr.all fun e =>
    match e with
    | Event.enumDevices m => m == deviceMask DeviceType.metal
    | _ => true

/-- C9: whatever the params carry (including `device_name`),
`cycles_ios_initialize` enumerates devices only with the Metal-only mask;
whenever that enumeration is nonempty the first enumerated device is the
one bound into the session params; and when it is empty the call returns
(no exit) without creating a session. -/
theorem C9_thm (env : Env) (p : CyclesInitParams) (o : IosOptions)
    (hv : validate_options o = ValidateResult.ok) :
    enumMetalOnly (cycles_ios_init env p o).events = true ∧
    (∀ d l, env.availableDevices (deviceMask DeviceType.metal) = d :: l →
      (cycles_ios_init env p o).o.session_params.device = d) ∧
    (env.availableDevices (deviceMask DeviceType.metal) = [] →
      (cycles_ios_init env p o).o.session = o.session ∧
      (cycles_ios_init env p o).exited = none ∧
      Event.createSession ∉ (cycles_ios_init env p o).events) := by
  refine ⟨?_, ?_, ?_⟩
  · rcases hd : env.availableDevices (deviceMask DeviceType.metal) with _ | ⟨d, l⟩
    · simp [cycles_ios_init, hv, hd, enumMetalOnly]
    · rcases sceneReadEvent_cases env p.filepath with hsr | hsr <;>
        by_cases hss : p.shading_system = "osl" <;>
          simp [cycles_ios_init, hv, hd, hss, scene_init_core, enumMetalOnly, hsr] <;>
            split_ifs <;> simp_all [enumMetalOnly, hsr]
  · intro d l hd
    rcases sceneReadEvent_cases env p.filepath with hsr | hsr <;>
      by_cases hss : p.shading_system = "osl" <;>
        simp [cycles_ios_init, hv, hd, hss, scene_init_core, hsr] <;>
          split_ifs <;> simp_all
  · intro hd
    simp [cycles_ios_init, hv, hd]

/-- C9, witness: with a Metal device available, the initialize attempt
enumerates only the Metal mask and binds the first Metal device, despite
the params requesting `device_name = "Metal"` being ignored entirely. -/
theorem C9_witness :
    enumMetalOnly (cycles_ios_init env0 pOk
      { iosOptions0 defP0 defSc0 with filepath := "scene.xml" }).events = true ∧
    (cycles_ios_init env0 pOk
      { iosOptions0 defP0 defSc0 with filepath := "scene.xml" }).o.session_params.device =
      metalDev := by
  have h := C9_thm env0 pOk
    { iosOptions0 defP0 defSc0 with filepath := "scene.xml" } (by decide)
  exact ⟨h.1, h.2.1 metalDev [] (by decide)⟩

/-- `cycles_ios_initialize` never assigns `options.output_filepath` (the
params struct has no output path field), and with it empty it never calls
`set_output_driver`, on any path through the function. -/
theorem ios_init_no_driver (env : Env) (p : CyclesInitParams) (o : IosOptions)
    (h : o.output_filepath = "") :
    (cycles_ios_init env p o).o.output_filepath = "" ∧
    Event.setOutputDriver ∉ (cycles_ios_init env p o).events := by
  rcases hv : validate_options o with _ | msg
  · rcases hd : env.availableDevices (deviceMask DeviceType.metal) with _ | ⟨d, l⟩
    · simp [cycles_ios_init, hv, hd, h]
    · rcases sceneReadEvent_cases env p.filepath with hsr | hsr <;>
        by_cases hss : p.shading_system = "osl" <;>
          simp [cycles_ios_init, hv, hd, hss, h, scene_init_core, hsr] <;>
            split_ifs <;> simp_all
  · simp [cycles_ios_init, hv, h]

/-- Trace invariant behind C10: across any call sequence,
`options.output_filepath` stays empty and no output driver is attached. -/
theorem ios_run_no_driver (env : Env) (ops : List IosOp) (s : IosProc)
    (h1 : s.o.output_filepath = "")
    (h2 : Event.setOutputDriver ∉ s.events) :
    (ops.foldl (iosStep env) s).o.output_filepath = "" ∧
    Event.setOutputDriver ∉ (ops.foldl (iosStep env) s).events := by
  induction ops generalizing s with
  | nil => exact ⟨h1, h2⟩
  | cons op rest ih =>
    simp only [List.foldl_cons]
    have hstep : (iosStep env s op).o.output_filepath = "" ∧
        Event.setOutputDriver ∉ (iosStep env s op).events := by
      rcases hh : s.halted with _ | c
      · rcases op with p | _ | _
        · have hi := ios_init_no_driver env p s.o h1
          rcases hm : s.o.session with _ | sess <;>
            simp [iosStep, hh, hi.1, hi.2, h1, h2]
        · rcases hm : s.o.session with _ | sess <;>
            simp [iosStep, hh, cycles_ios_render, hm, h1, h2]
        · rcases hm : s.o.session with _ | sess <;>
            simp [iosStep, hh, cycles_ios_cleanup, hm, h1, h2]
      · simp [iosStep, hh, h1, h2]
    exact ih _ hstep.1 hstep.2

/-- C10: in the embedding lifecycle the file-variant OutputDriver is never
attached — across every sequence of
`cycles_ios_initialize` / `cycles_ios_render` / `cycles_ios_cleanup` calls,
`options.output_filepath` (which no code of the translation unit ever
assigns, `CyclesInitParams` carrying no output path) remains empty and
`set_output_driver` is never called; moreover a single initialize call
from any state with an empty `output_filepath` preserves both facts. -/
theorem C10_thm (env : Env) (defP : SessionParams) (defSc : SceneParams)
    (ops : List IosOp) (p : CyclesInitParams) (o : IosOptions) :
    ((iosRun env ops defP defSc).o.output_filepath = "" ∧
      Event.setOutputDriver ∉ (iosRun env ops defP defSc).events) ∧
    (o.output_filepath = "" →
      (cycles_ios_init env p o).o.output_filepath = "" ∧
      Event.setOutputDriver ∉ (cycles_ios_init env p o).events) := by
  constructor
  · simp only [iosRun]
    exact ios_run_no_driver env ops (iosProc0 defP defSc)
      (by simp [iosProc0, iosOptions0]) (by simp [iosProc0])
  · exact ios_init_no_driver env p o

/-- C10, witness: a concrete initialize/render/cleanup sequence attaches
no output driver and leaves the output path empty. -/
theorem C10_witness :
    ((iosRun env0 [IosOp.init pOk, IosOp.render, IosOp.cleanup] defP0 defSc0).o.output_filepath = "" ∧
      Event.setOutputDriver ∉
        (iosRun env0 [IosOp.init pOk, IosOp.render, IosOp.cleanup] defP0 defSc0).events) ∧
    (cycles_ios_init env0 pOk
        { iosOptions0 defP0 defSc0 with filepath := "b.xml" }).o.output_filepath = "" ∧
    Event.setOutputDriver ∉ (cycles_ios_init env0 pOk
        { iosOptions0 defP0 defSc0 with filepath := "b.xml" }).events := by
  have h := C10_thm env0 defP0 defSc0 [IosOp.init pOk, IosOp.render, IosOp.cleanup] pOk
    { iosOptions0 defP0 defSc0 with filepath := "b.xml" }
  exact ⟨h.1, (h.2 rfl).1, (h.2 rfl).2⟩

/-- Scan of a trace: stays `true` as long as every `computeViewplane` seen
so far was preceded (anywhere earlier) by a `reconcileResolution`; the
accumulator records whether a reconciliation has completed yet. -/
def viewplaneCoveredFrom : Bool → List Event → Bool
  | _, [] => true
  | _, Event.reconcileResolution :: rest => viewplaneCoveredFrom true rest
  | seen, Event.computeViewplane :: rest => seen && viewplaneCoveredFrom seen rest
  | seen, _ :: rest => viewplaneCoveredFrom seen rest

/-- No viewplane recomputation before resolution reconciliation completes. -/
def viewplaneAfterReconcile (tr : List Event) : Bool := viewplaneCoveredFrom false tr

/-- Once a reconciliation has completed, the rest of any trace is covered. -/
theorem viewplaneCoveredFrom_true (l : List Event) : viewplaneCoveredFrom true l = true := by
  induction l with
  | nil => rfl
  | cons e rest ih => cases e <;> simp [viewplaneCoveredFrom, ih]

/-- C6: on every path of both lifecycles — `scene_init` itself,
`session_init`, a whole standalone `main` run, and `cycles_ios_initialize`
— the `compute_auto_viewplane` call is never reached before resolution
reconciliation has completed, whatever the configuration inputs. -/
theorem C6_thm (env : Env) (o : StandaloneOptions)
    (defP : SessionParams) (defSc : SceneParams) (m0 : Nat) (a : ParsedArgs)
    (p : CyclesInitParams) (oi : IosOptions) :
    viewplaneAfterReconcile (((scene_init env o).map Prod.snd).getD []) = true ∧
    viewplaneAfterReconcile (session_init env o).2 = true ∧
    viewplaneAfterReconcile (standalone_main env defP defSc m0 a).events = true ∧
    viewplaneAfterReconcile (cycles_ios_init env p oi).events = true := by
  refine ⟨?_, ?_, ?_, ?_⟩
  · rcases hs : o.session with _ | sess
    · simp [scene_init, hs, viewplaneAfterReconcile, viewplaneCoveredFrom]
    · rcases sceneReadEvent_cases env o.filepath with hsr | hsr <;>
        simp [scene_init, hs, scene_init_core, viewplaneAfterReconcile, hsr,
          viewplaneCoveredFrom, viewplaneCoveredFrom_true]
  · rcases sceneReadEvent_cases env o.filepath with hsr | hsr <;>
      simp [session_init, scene_init_core, viewplaneAfterReconcile, hsr] <;>
        split_ifs <;>
          simp [viewplaneCoveredFrom, viewplaneCoveredFrom_true]
  · rcases hpo : options_parse env defP defSc a with ⟨c, out⟩ | ⟨o1, out⟩
    · simp [standalone_main, hpo, viewplaneAfterReconcile, viewplaneCoveredFrom]
    · rcases sceneReadEvent_cases env o1.filepath with hsr | hsr <;>
        simp [standalone_main, hpo, session_init, session_exit, scene_init_core,
          viewplaneAfterReconcile, hsr] <;>
          split_ifs <;>
            simp [viewplaneCoveredFrom, viewplaneCoveredFrom_true]
  · rcases hv : validate_options oi with _ | msg
    · rcases hd : env.availableDevices (deviceMask DeviceType.metal) with _ | ⟨d, l⟩
      · simp [cycles_ios_init, hv, hd, viewplaneAfterReconcile, viewplaneCoveredFrom]
      · rcases sceneReadEvent_cases env p.filepath with hsr | hsr <;>
          by_cases hss : p.shading_system = "osl" <;>
            simp [cycles_ios_init, hv, hd, hss, scene_init_core,
              viewplaneAfterReconcile, hsr] <;>
              split_ifs <;>
                simp [viewplaneCoveredFrom, viewplaneCoveredFrom_true]
    · simp [cycles_ios_init, hv, viewplaneAfterReconcile, viewplaneCoveredFrom]
